import Mathlib

/-!
Verification development for the FAv2 email-OTP authentication repository.

The frontend sources (`components/shared/api.js`, the email OTP component,
and the legacy phone OTP component) are embedded shallowly below: DOM state
and module-level component state become an explicit `CompState`, network
calls become explicit `Except`-valued environment arguments, and side
effects (requests issued, callbacks invoked, scheduled timeouts) are
returned as an explicit effect list.  The FastAPI backend is not part of
the source tree; the one claim about it is settled against a model built
from the specification text and marked as such.
-/

namespace FAv2

/-! ### Backend session model (spec-modelled) -/

/-- Modelled from the spec: the backend `OTPSession` record
(`backend/app/routes/otp.py` is not in the source tree).  Spec §3: an
OTPSession stores the one-way hash of the current code, an absolute expiry
timestamp and a `verified` flag that is settable only false→true. -/
structure OTPSession where
  codeHash : String
  expiresAt : Nat
  verified : Bool
  deriving DecidableEq, Repr

/-- Modelled from the spec: the outcome kinds of `verify` per spec §4.3 and
§6 (`accessToken` success plus the failure kinds; `minted` records that an
access token was minted). -/
inductive VerifyOutcome where
  | minted
  | sessionTokenInvalid
  | sessionExpired
  | alreadyVerified
  | invalidOTP
  deriving DecidableEq, Repr

/-- Modelled from the spec: the one-way code hash used by OTPGenerator.
For functional modelling the hash is an injective tagging function; the
spec only requires that equal hashes correspond to equal codes. -/
def hashOf (code : String) : String := "#" ++ code

/-- Modelled from the spec: `OTPSessionManager.verify(sessionToken,
submittedCode)` (spec §4.3).  The session-token signature/expiry check is
abstracted into the boolean `tokenValid`; then the session's own expiry is
checked (`SessionExpired` when lapsed), then the single-use flag
(`AlreadyVerified`), then the hash comparison (`InvalidOTP` on mismatch);
on match `verified` is set true and an access token is minted. -/
def otpVerify (s : OTPSession) (tokenValid : Bool) (now : Nat) (code : String) :
    VerifyOutcome × OTPSession :=
  if tokenValid = false then (.sessionTokenInvalid, s)
  else if s.expiresAt < now then (.sessionExpired, s)
  else if s.verified then (.alreadyVerified, s)
  else if hashOf code ≠ s.codeHash then (.invalidOTP, s)
  else (.minted, { s with verified := true })

/-! ### Frontend component model

Embeds `src/unnamed/part_002` (the email OTP component `MFAOtpVerify`),
whose input handling, submit path and timer are shared verbatim with the
legacy phone component `src/components/otp-verify/otp-verify.js`.  DOM
values and module state are gathered into `CompState`; the network is an
explicit `Except`-valued argument; requests, callbacks and scheduled
timeouts are returned as an effect list. -/

/-- The six OTP input boxes; each holds its DOM `value` as a char list. -/
abbrev Boxes := Fin 6 → List Char

/-- Component state: the six input values, the module-level `config`
fields that the handlers mutate (`sessionToken`, `email`,
`expirySeconds`), and the DOM/timer state the handlers read and write. -/
structure CompState where
  boxes : Boxes
  sessionToken : Option String
  email : Option String
  expirySeconds : Nat
  phoneDisplay : String
  verifyBtnDisabled : Bool
  verifyBtnText : String
  verifyBtnLoading : Bool
  resendBtnDisabled : Bool
  resendBtnText : String
  timerRunning : Bool
  timerRemaining : Nat
  timerDisplay : String
  timerExpired : Bool
  errorMsg : Option String
  formVisible : Bool
  successVisible : Bool
  inputsHighlightError : Bool

/-- The three POST bodies the component can put on the wire, exactly the
object literals built in `api.js` / the component's direct-fetch branches. -/
inductive Request where
  | initOtpByEmail (email : String)
  | sendOtp (session_token : Option String)
  | verifyOtp (session_token : String) (otp : List Char)
  deriving DecidableEq, Repr

/-- Endpoint each request is POSTed to (`api.js`). -/
def Request.endpoint : Request → String
  | .initOtpByEmail _ => "/auth/init-otp-by-email"
  | .sendOtp _ => "/auth/send-otp"
  | .verifyOtp _ _ => "/auth/verify-otp"

/-- HTTP method used for each request (`api.js`: all three are POST). -/
def Request.httpMethod : Request → String := fun _ => "POST"

/-- Whether a request body carries the given session token. -/
def Request.presentsToken (r : Request) (tok : String) : Bool :=
  match r with
  | .initOtpByEmail _ => false
  | .sendOtp t => t == some tok
  | .verifyOtp t _ => t == tok

/-- Observable side effects of one handler run. -/
inductive Effect where
  | request (r : Request)
  | successCallback (accessToken : String) (tokenType : String)
  | errorCallback (msg : String)
  | clearHighlightAfterMs (ms : Nat)
  deriving DecidableEq, Repr

/-- JS `x || d` for an optional number (`undefined`, `null` and `0` are
falsy). -/
def jsOrNat (o : Option Nat) (d : Nat) : Nat :=
  match o with
  | some n => if n = 0 then d else n
  | none => d

/-- JS `s || d` for a string (`''` is falsy). -/
def jsOrStr (s d : String) : String := if s = "" then d else s

/-- JS truthiness test of an optional string (`undefined`, `null`, `''`
are falsy). -/
def jsTruthyStr (o : Option String) : Option String :=
  match o with
  | some s => if s = "" then none else some s
  | none => none

/-- Default `config.expirySeconds` (part_002 line 13). -/
def defaultExpirySeconds : Nat := 300

/-- JS `String.prototype.padStart(2, '0')`. -/
def padStart2 (s : String) : String :=
  String.mk (List.replicate (2 - s.length) '0') ++ s

/-- The timer display string: `mins:secs` with seconds zero-padded
(`startTimer`'s `updateDisplay`). -/
def formatTime (secs : Nat) : String :=
  toString (secs / 60) ++ ":" ++ padStart2 (toString (secs % 60))

/-- `startTimer(container, seconds)`: clears any previous interval, resets
the expired styling, stores the remaining seconds and renders them. -/
def startTimer (st : CompState) (seconds : Nat) : CompState :=
  { st with timerRunning := true, timerExpired := false,
            timerRemaining := seconds, timerDisplay := formatTime seconds }

/-- One interval tick: decrement, re-render, and on reaching zero stop the
interval, mark expired, render `Expired` and enable the resend button. -/
def tick (st : CompState) : CompState :=
  if st.timerRunning = false then st
  else
    let r := st.timerRemaining - 1
    let st1 := { st with timerRemaining := r, timerDisplay := formatTime r }
    if st.timerRemaining ≤ 1 then
      { st1 with timerRunning := false, timerExpired := true,
                 timerDisplay := "Expired", resendBtnDisabled := false }
    else st1

/-- `Array.from(inputs).map(input => input.value).join('')`: the six box
values concatenated in index order. -/
def joinBoxes (b : Boxes) : List Char :=
  b 0 ++ b 1 ++ b 2 ++ b 3 ++ b 4 ++ b 5

/-- `Array.from(inputs).every(input => input.value.length === 1)`. -/
def allFilled (b : Boxes) : Bool :=
  ((b 0).length == 1) && ((b 1).length == 1) && ((b 2).length == 1) &&
  ((b 3).length == 1) && ((b 4).length == 1) && ((b 5).length == 1)

/-- User interactions handled by `attachEvents`: an `input` event on box
`i` whose target now holds `raw`, a Backspace keydown on box `i`, and a
`paste` whose clipboard text is `text`. -/
inductive BoxEvent where
  | input (i : Fin 6) (raw : List Char)
  | backspaceKey (i : Fin 6)
  | paste (text : List Char)

/-- DOM-level well-formedness of an event: `maxlength="1"` keeps an input
event's value to at most one character. -/
def BoxEvent.wf : BoxEvent → Prop
  | .input _ raw => raw.length ≤ 1
  | .backspaceKey _ => True
  | .paste _ => True

/-- The `input`, `keydown` (Backspace) and `paste` handlers of
`attachEvents`.  Note the `input` handler's non-digit branch clears the
box and returns before `updateVerifyButton`, and the Backspace handler
never calls `updateVerifyButton`. -/
def applyEvent (st : CompState) (e : BoxEvent) : CompState :=
  match e with
  | .input i raw =>
      if raw.all Char.isDigit then
        let b := Function.update st.boxes i raw
        { st with boxes := b, verifyBtnDisabled := !(allFilled b) }
      else
        { st with boxes := Function.update st.boxes i [] }
  | .backspaceKey i =>
      if (st.boxes i).isEmpty ∧ 0 < i.val then
        let j : Fin 6 := ⟨i.val - 1, Nat.lt_of_le_of_lt (Nat.sub_le _ _) i.isLt⟩
        { st with boxes := Function.update st.boxes j [] }
      else st
  | .paste text =>
      let digits := text.filter Char.isDigit
      let b : Boxes := fun j =>
        if h : j.val < digits.length then [digits.get ⟨j.val, h⟩] else st.boxes j
      { st with boxes := b, verifyBtnDisabled := !(allFilled b) }

/-- Invariant maintained by the handlers: every box holds at most one
character and only digits. -/
def boxesWF (b : Boxes) : Prop :=
  ∀ i : Fin 6, (b i).length ≤ 1 ∧ (b i).all Char.isDigit = true

/-- Parsed success payload of `/auth/verify-otp`. -/
structure VerifyOk where
  access_token : String
  token_type : String
  deriving DecidableEq, Repr

/-- Parsed success payload of `/auth/send-otp`. -/
structure SendOk where
  phone_masked : Option String
  expires_in : Option Nat
  deriving DecidableEq, Repr

/-- Parsed success payload of `/auth/init-otp-by-email`. -/
structure InitOk where
  session_token : Option String
  phone_masked : Option String
  expires_in : Option Nat
  deriving DecidableEq, Repr

/-- The catch block of the component's `verifyOtp`: flash the error
styling on the inputs (cleared again 500 ms later) and show the error
message, defaulting when the thrown message is empty. -/
def verifyErrorPath (st : CompState) (msg : String) : CompState :=
  { st with inputsHighlightError := true,
            errorMsg := some (jsOrStr msg "Invalid OTP. Please try again.") }

/-- The finally block of the component's `verifyOtp`: re-enable the verify
button and restore its label. -/
def verifyFinally (st : CompState) : CompState :=
  { st with verifyBtnDisabled := false, verifyBtnLoading := false,
            verifyBtnText := "Verify OTP" }

/-- The component's `verifyOtp(container)` (part_002 lines 385-467; the
legacy component differs only in lacking the missing-token guard).  `net`
is the outcome of `MFAApi.verifyOtp`: the parsed body on an ok response,
or the thrown error message. -/
def compVerifyOtp (st : CompState) (net : Except String VerifyOk) :
    CompState × List Effect :=
  let otp := joinBoxes st.boxes
  if otp.length ≠ 6 then
    ({ st with errorMsg := some "Please enter the complete 6-digit OTP" }, [])
  else
    let st1 := { st with verifyBtnDisabled := true, verifyBtnLoading := true,
                         verifyBtnText := "", errorMsg := none }
    match st1.sessionToken with
    | none =>
        let msg := "Session token is missing. Please try again."
        (verifyFinally (verifyErrorPath st1 msg),
         [.clearHighlightAfterMs 500, .errorCallback msg])
    | some tok =>
        match net with
        | .ok resp =>
            let st2 := { st1 with timerRunning := false, formVisible := false,
                                  successVisible := true }
            (verifyFinally st2,
             [.request (.verifyOtp tok otp),
              .successCallback resp.access_token resp.token_type])
        | .error e =>
            (verifyFinally (verifyErrorPath st1 e),
             [.request (.verifyOtp tok otp), .clearHighlightAfterMs 500,
              .errorCallback e])

/-- The component's `sendOtp(container)` (part_002 lines 298-343): hide
any error, disable the resend button with label `Sending...`, issue the
request with the stored session token, and on success update the masked
display when `phone_masked` is truthy, restart the timer from
`expires_in || config.expirySeconds` and restore the `Resend OTP` label;
on failure show the error and re-enable the button as `Retry Send`. -/
def compSendOtp (st : CompState) (net : Except String SendOk) :
    CompState × List Effect :=
  let st1 := { st with errorMsg := none, resendBtnDisabled := true,
                       resendBtnText := "Sending..." }
  let req : Request := .sendOtp st1.sessionToken
  match net with
  | .ok resp =>
      let st2 := match jsTruthyStr resp.phone_masked with
        | some m => { st1 with phoneDisplay := m }
        | none => st1
      let st3 := startTimer st2 (jsOrNat resp.expires_in st2.expirySeconds)
      ({ st3 with resendBtnText := "Resend OTP" }, [.request req])
  | .error e =>
      ({ st1 with errorMsg := some (jsOrStr e "Failed to send OTP. Please try again."),
                  resendBtnText := "Retry Send", resendBtnDisabled := false },
       [.request req])

/-- The component's `initOtpByEmail(container)` (part_002 lines 221-293):
requires a truthy configured email (else the thrown message is shown and
the button re-enabled as `Retry Send`), issues the init request with the
email only, stores a truthy `session_token` from the response, updates the
masked display when `phone_masked` is truthy and restarts the timer. -/
def compInitOtpByEmail (st : CompState) (net : Except String InitOk) :
    CompState × List Effect :=
  let st1 := { st with errorMsg := none, resendBtnDisabled := true,
                       resendBtnText := "Sending..." }
  match jsTruthyStr st1.email with
  | none =>
      let msg := "Email is required to initialize OTP"
      ({ st1 with errorMsg := some msg, resendBtnText := "Retry Send",
                  resendBtnDisabled := false }, [])
  | some em =>
      let req : Request := .initOtpByEmail em
      match net with
      | .ok resp =>
          let st2 := match jsTruthyStr resp.session_token with
            | some t => { st1 with sessionToken := some t }
            | none => st1
          let st3 := match jsTruthyStr resp.phone_masked with
            | some m => { st2 with phoneDisplay := m }
            | none => st2
          let st4 := startTimer st3 (jsOrNat resp.expires_in st3.expirySeconds)
          ({ st4 with resendBtnText := "Resend OTP" }, [.request req])
      | .error e =>
          ({ st1 with errorMsg := some (jsOrStr e "Failed to send OTP. Please try again."),
                      resendBtnText := "Retry Send", resendBtnDisabled := false },
           [.request req])

/-- The resend button's click handler (part_002 lines 198-204): the email
flow re-invokes `initOtpByEmail`, the token flow re-invokes `sendOtp`. -/
def compResendClick (st : CompState) (netInit : Except String InitOk)
    (netSend : Except String SendOk) : CompState × List Effect :=
  match jsTruthyStr st.email with
  | some _ => compInitOtpByEmail st netInit
  | none => compSendOtp st netSend

/-! ### Shared API module (`components/shared/api.js`) -/

/-- Stand-in for the JSON value parsed from a response body: the `detail`
field the error path reads, plus the remaining payload abstracted as an
opaque string. -/
structure RespData where
  detail : Option String
  payload : String
  deriving DecidableEq, Repr

/-- Environment of one `fetch` + `response.json()` round trip: the fetch
itself may reject, and the body parse may reject. -/
inductive FetchOutcome where
  | netError (msg : String)
  | response (ok : Bool) (json : Except String RespData)
  deriving Repr

/-- The `fetch` options object the `request` helper builds: method, the
fixed JSON content type, an optional bearer header, an optional
stringified body. -/
structure BuiltRequest where
  url : String
  method : String
  contentType : String
  authorization : Option String
  body : Option String
  deriving DecidableEq, Repr

/-- First copy of `MFAApi.request` in `api.js` (the variant with
diagnostic console logging; console output is not observable here).
Builds the URL by concatenation, sets the JSON content type, adds a
bearer header for a truthy token, attaches the stringified body for
non-GET truthy data, then resolves with the parsed body on an ok
response and otherwise throws `detail || 'Request failed'`; fetch or
parse rejections are rethrown. -/
def runRequestV1 (apiUrl endpoint method : String)
    (data token : Option String) (env : FetchOutcome) :
    BuiltRequest × Except String RespData :=
  let req : BuiltRequest :=
    { url := apiUrl ++ endpoint
      method := method
      contentType := "application/json"
      authorization := (jsTruthyStr token).map (fun t => "Bearer " ++ t)
      body := if method ≠ "GET" then jsTruthyStr data else none }
  let res : Except String RespData :=
    match env with
    | .netError m => .error m
    | .response _ (.error jm) => .error jm
    | .response ok (.ok d) =>
        if ok then .ok d
        else .error (jsOrStr (d.detail.getD "") "Request failed")
  (req, res)

/-- Second copy of `MFAApi.request` in `api.js` (the variant without
diagnostic console logging); translated independently from its own body. -/
def runRequestV2 (apiUrl endpoint method : String)
    (data token : Option String) (env : FetchOutcome) :
    BuiltRequest × Except String RespData :=
  let req : BuiltRequest :=
    { url := apiUrl ++ endpoint
      method := method
      contentType := "application/json"
      authorization := (jsTruthyStr token).map (fun t => "Bearer " ++ t)
      body := if method ≠ "GET" then jsTruthyStr data else none }
  let res : Except String RespData :=
    match env with
    | .netError m => .error m
    | .response _ (.error jm) => .error jm
    | .response ok (.ok d) =>
        if ok then .ok d
        else .error (jsOrStr (d.detail.getD "") "Request failed")
  (req, res)

/-- `MFAApi.configure`: `url.replace(/\/$/, '')`, i.e. remove one
trailing slash character when present (char-level model). -/
def stripTrailingSlash (url : List Char) : List Char :=
  if url.getLast? = some '/' then url.dropLast else url

/-- The value stored into the module-level `apiUrl` by `configure`. -/
def configureStored (url : List Char) : List Char := stripTrailingSlash url

/-! ### Sample states used by the closed witnesses -/

/-- All six boxes filled with the digit 1. -/
def sampleBoxes : Boxes := fun _ => ['1']

/-- A filled-in component state in the email flow with a stored token. -/
def sampleState : CompState :=
  { boxes := sampleBoxes, sessionToken := some "T1", email := some "u@x.com",
    expirySeconds := 300, phoneDisplay := "****", verifyBtnDisabled := false,
    verifyBtnText := "Verify OTP", verifyBtnLoading := false,
    resendBtnDisabled := true, resendBtnText := "Resend OTP",
    timerRunning := true, timerRemaining := 300, timerDisplay := "5:00",
    timerExpired := false, errorMsg := none, formVisible := true,
    successVisible := false, inputsHighlightError := false }

/-- The freshly rendered email-flow state before the first init call. -/
def freshEmailState : CompState :=
  { boxes := fun _ => [], sessionToken := none, email := some "u@x.com",
    expirySeconds := 300, phoneDisplay := "****", verifyBtnDisabled := true,
    verifyBtnText := "Verify OTP", verifyBtnLoading := false,
    resendBtnDisabled := true, resendBtnText := "Resend OTP",
    timerRunning := false, timerRemaining := 0, timerDisplay := "5:00",
    timerExpired := false, errorMsg := none, formVisible := true,
    successVisible := false, inputsHighlightError := false }

/-- `sampleState` one second before the countdown reaches zero. -/
def nearExpiryState : CompState := { sampleState with timerRemaining := 1 }

/-- A concrete init response carrying session token `T1`. -/
def initResp1 : InitOk := ⟨some "T1", some "u***@x.com", some 300⟩

/-- A concrete init response carrying session token `T2`. -/
def initResp2 : InitOk := ⟨some "T2", some "u***@x.com", some 300⟩

/-- The email-flow state after the first init call stored token `T1`. -/
def stateAfterInit : CompState :=
  (compInitOtpByEmail freshEmailState (.ok initResp1)).1

/-- The fresh state after pasting `123456` into the boxes. -/
def statePasted : CompState :=
  applyEvent freshEmailState (.paste "123456".toList)

/-- `statePasted` after an input event typing `a` into the first box. -/
def stateNonDigit : CompState :=
  applyEvent statePasted (.input 0 ['a'])

end FAv2

namespace FAv2

/-- C1: for every session on which verify has already succeeded, a second
verify with the same (still valid) session token, same or different code,
fails with AlreadyVerified; verify with the exact generated code before
expiry succeeds exactly once, sets the verified flag, and no later verify
call on that session ever mints a second access token. -/
theorem otpVerify_single_use (s : OTPSession) (now : Nat) (code : String)
    (hnow : now ≤ s.expiresAt) (hver : s.verified = false)
    (hcode : s.codeHash = hashOf code) :
    (otpVerify s true now code).1 = .minted ∧
    (otpVerify s true now code).2.verified = true ∧
    (∀ now2 code2, now2 ≤ s.expiresAt →
      (otpVerify (otpVerify s true now code).2 true now2 code2).1 = .alreadyVerified) ∧
    (∀ now2 code2 tv2,
      (otpVerify (otpVerify s true now code).2 tv2 now2 code2).1 ≠ .minted) := by
  have hlt : ¬ s.expiresAt < now := Nat.not_lt.mpr hnow
  have hne : ¬ hashOf code ≠ s.codeHash := by simp [hcode]
  refine ⟨?_, ?_, ?_, ?_⟩
  · simp [otpVerify, hlt, hver, hne]
  · simp [otpVerify, hlt, hver, hne]
  · intro now2 code2 h2
    have hlt2 : ¬ s.expiresAt < now2 := Nat.not_lt.mpr h2
    simp [otpVerify, hlt, hver, hne, hlt2]
  · intro now2 code2 tv2
    rcases tv2 with _ | _
    · simp [otpVerify, hlt, hver, hne]
    · by_cases h2 : s.expiresAt < now2 <;>
        simp [otpVerify, hlt, hver, hne, h2]

/-- Closed witness for `otpVerify_single_use` at a concrete session. -/
theorem otpVerify_single_use_witness :
    (10 ≤ (OTPSession.mk (hashOf "482193") 300 false).expiresAt ∧
     (OTPSession.mk (hashOf "482193") 300 false).verified = false ∧
     (OTPSession.mk (hashOf "482193") 300 false).codeHash = hashOf "482193" ∧
     20 ≤ (OTPSession.mk (hashOf "482193") 300 false).expiresAt) ∧
    ((otpVerify (OTPSession.mk (hashOf "482193") 300 false) true 10 "482193").1 = .minted ∧
     (otpVerify (OTPSession.mk (hashOf "482193") 300 false) true 10 "482193").2.verified = true ∧
     (otpVerify (otpVerify (OTPSession.mk (hashOf "482193") 300 false) true 10 "482193").2
        true 20 "482193").1 = .alreadyVerified ∧
     (otpVerify (otpVerify (OTPSession.mk (hashOf "482193") 300 false) true 10 "482193").2
        true 20 "999999").1 ≠ .minted) :=
  ⟨⟨by decide, rfl, rfl, by decide⟩,
   (otpVerify_single_use (OTPSession.mk (hashOf "482193") 300 false) 10 "482193"
      (by decide) rfl rfl).1,
   (otpVerify_single_use (OTPSession.mk (hashOf "482193") 300 false) 10 "482193"
      (by decide) rfl rfl).2.1,
   (otpVerify_single_use (OTPSession.mk (hashOf "482193") 300 false) 10 "482193"
      (by decide) rfl rfl).2.2.1 20 "482193" (by decide),
   (otpVerify_single_use (OTPSession.mk (hashOf "482193") 300 false) 10 "482193"
      (by decide) rfl rfl).2.2.2 20 "999999" true⟩

/-- C2: for every verify submission with a stored session token and a
complete 6-character code, the component issues exactly one request, a
POST to `/auth/verify-otp` whose body is exactly
`{session_token, otp}`, and on an ok response it stops the countdown and
invokes the success callback with `accessToken` equal to the response's
`access_token` and `tokenType` equal to its `token_type`. -/
theorem compVerifyOtp_success (st : CompState) (tok a t : String)
    (htok : st.sessionToken = some tok)
    (hlen : (joinBoxes st.boxes).length = 6) :
    (compVerifyOtp st (.ok ⟨a, t⟩)).2 =
      [.request (.verifyOtp tok (joinBoxes st.boxes)),
       .successCallback a t] ∧
    (compVerifyOtp st (.ok ⟨a, t⟩)).1.timerRunning = false ∧
    (Request.verifyOtp tok (joinBoxes st.boxes)).endpoint = "/auth/verify-otp" ∧
    (Request.verifyOtp tok (joinBoxes st.boxes)).httpMethod = "POST" := by
  refine ⟨?_, ?_, rfl, rfl⟩ <;>
    simp [compVerifyOtp, verifyFinally, hlen, htok]

/-- Closed witness for `compVerifyOtp_success` at a concrete state. -/
theorem compVerifyOtp_success_witness :
    (sampleState.sessionToken = some "T1" ∧
     (joinBoxes sampleState.boxes).length = 6) ∧
    ((compVerifyOtp sampleState (.ok ⟨"AT", "bearer"⟩)).2 =
       [.request (.verifyOtp "T1" (joinBoxes sampleState.boxes)),
        .successCallback "AT" "bearer"] ∧
     (compVerifyOtp sampleState (.ok ⟨"AT", "bearer"⟩)).1.timerRunning = false ∧
     (Request.verifyOtp "T1" (joinBoxes sampleState.boxes)).endpoint = "/auth/verify-otp" ∧
     (Request.verifyOtp "T1" (joinBoxes sampleState.boxes)).httpMethod = "POST") :=
  ⟨⟨rfl, by decide⟩,
   compVerifyOtp_success sampleState "T1" "AT" "bearer" rfl (by decide)⟩

/-- C3: every resend through the token flow issues exactly one request,
a POST to `/auth/send-otp` whose body holds only the stored session
token; on success the masked-address display is updated from a present
(truthy) `phone_masked` and left unchanged when the field is absent, and
the countdown is restarted from a present nonzero `expires_in`. -/
theorem compSendOtp_resend (st : CompState) (tok m : String) (n : Nat)
    (resp : SendOk) (htok : st.sessionToken = some tok)
    (hm : resp.phone_masked = some m) (hmne : m ≠ "")
    (he : resp.expires_in = some n) (hn : n ≠ 0) :
    (compSendOtp st (.ok resp)).2 = [.request (.sendOtp (some tok))] ∧
    (Request.sendOtp (some tok)).endpoint = "/auth/send-otp" ∧
    (Request.sendOtp (some tok)).httpMethod = "POST" ∧
    (compSendOtp st (.ok resp)).1.phoneDisplay = m ∧
    (∀ resp2 : SendOk, resp2.phone_masked = none →
       (compSendOtp st (.ok resp2)).1.phoneDisplay = st.phoneDisplay) ∧
    (compSendOtp st (.ok resp)).1.timerRunning = true ∧
    (compSendOtp st (.ok resp)).1.timerRemaining = n := by
  refine ⟨?_, rfl, rfl, ?_, ?_, ?_, ?_⟩
  · simp [compSendOtp, htok, hm, he, startTimer]
  · simp [compSendOtp, hm, jsTruthyStr, hmne, startTimer]
  · intro resp2 h2
    simp [compSendOtp, h2, jsTruthyStr, startTimer]
  · simp [compSendOtp, hm, he, startTimer]
  · simp [compSendOtp, hm, he, startTimer, jsOrNat, hn]

/-- Closed witness for `compSendOtp_resend` at a concrete state. -/
theorem compSendOtp_resend_witness :
    (sampleState.sessionToken = some "T1" ∧
     (SendOk.mk (some "u***@x.com") (some 120)).phone_masked = some "u***@x.com" ∧
     "u***@x.com" ≠ "" ∧
     (SendOk.mk (some "u***@x.com") (some 120)).expires_in = some 120 ∧
     (120 : Nat) ≠ 0 ∧
     (SendOk.mk none none).phone_masked = none) ∧
    ((compSendOtp sampleState (.ok (SendOk.mk (some "u***@x.com") (some 120)))).2 =
       [.request (.sendOtp (some "T1"))] ∧
     (Request.sendOtp (some "T1")).endpoint = "/auth/send-otp" ∧
     (Request.sendOtp (some "T1")).httpMethod = "POST" ∧
     (compSendOtp sampleState (.ok (SendOk.mk (some "u***@x.com") (some 120)))).1.phoneDisplay
       = "u***@x.com" ∧
     (compSendOtp sampleState (.ok (SendOk.mk none none))).1.phoneDisplay
       = sampleState.phoneDisplay ∧
     (compSendOtp sampleState (.ok (SendOk.mk (some "u***@x.com") (some 120)))).1.timerRunning
       = true ∧
     (compSendOtp sampleState (.ok (SendOk.mk (some "u***@x.com") (some 120)))).1.timerRemaining
       = 120) :=
  ⟨⟨rfl, rfl, by decide, rfl, by decide, rfl⟩,
   (compSendOtp_resend sampleState "T1" "u***@x.com" 120
      (SendOk.mk (some "u***@x.com") (some 120)) rfl rfl (by decide) rfl (by decide)).1,
   (compSendOtp_resend sampleState "T1" "u***@x.com" 120
      (SendOk.mk (some "u***@x.com") (some 120)) rfl rfl (by decide) rfl (by decide)).2.1,
   (compSendOtp_resend sampleState "T1" "u***@x.com" 120
      (SendOk.mk (some "u***@x.com") (some 120)) rfl rfl (by decide) rfl (by decide)).2.2.1,
   (compSendOtp_resend sampleState "T1" "u***@x.com" 120
      (SendOk.mk (some "u***@x.com") (some 120)) rfl rfl (by decide) rfl (by decide)).2.2.2.1,
   (compSendOtp_resend sampleState "T1" "u***@x.com" 120
      (SendOk.mk (some "u***@x.com") (some 120)) rfl rfl (by decide) rfl
      (by decide)).2.2.2.2.1 (SendOk.mk none none) rfl,
   (compSendOtp_resend sampleState "T1" "u***@x.com" 120
      (SendOk.mk (some "u***@x.com") (some 120)) rfl rfl (by decide) rfl
      (by decide)).2.2.2.2.2.1,
   (compSendOtp_resend sampleState "T1" "u***@x.com" 120
      (SendOk.mk (some "u***@x.com") (some 120)) rfl rfl (by decide) rfl
      (by decide)).2.2.2.2.2.2⟩

/-- C5: the component's default expiry is 300 seconds; the countdown
started after a send uses the server's `expires_in` when truthy and falls
back to the configured 300 otherwise; a 300-second countdown initially
renders as `5:00`; and when the remaining time reaches zero the display
becomes `Expired` and the resend button is enabled. -/
theorem timer_expiry_behavior (st : CompState) (n : Nat) (resp : SendOk) :
    defaultExpirySeconds = 300 ∧
    (n ≠ 0 → jsOrNat (some n) defaultExpirySeconds = n) ∧
    jsOrNat (some 0) defaultExpirySeconds = 300 ∧
    jsOrNat none defaultExpirySeconds = 300 ∧
    (st.expirySeconds = 300 →
      (compSendOtp st (.ok resp)).1.timerRemaining = jsOrNat resp.expires_in 300) ∧
    formatTime 300 = "5:00" ∧
    (startTimer st 300).timerDisplay = "5:00" ∧
    (st.timerRunning = true → st.timerRemaining = 1 →
      (tick st).timerDisplay = "Expired" ∧ (tick st).resendBtnDisabled = false ∧
      (tick st).timerExpired = true) := by
  refine ⟨rfl, ?_, rfl, rfl, ?_, by decide, ?_, ?_⟩
  · intro hn; simp [jsOrNat, hn, defaultExpirySeconds]
  · intro hexp
    rcases resp with ⟨pm, ei⟩
    rcases pm with _ | m
    · simp [compSendOtp, jsTruthyStr, startTimer, hexp]
    · by_cases hm : m = "" <;>
        simp [compSendOtp, jsTruthyStr, startTimer, hexp, hm]
  · simp only [startTimer]; decide
  · intro hrun hrem
    simp [tick, hrun, hrem]

/-- Closed witness for `timer_expiry_behavior` at a concrete state. -/
theorem timer_expiry_behavior_witness :
    ((1 : Nat) ≠ 0 ∧ nearExpiryState.expirySeconds = 300 ∧
     nearExpiryState.timerRunning = true ∧ nearExpiryState.timerRemaining = 1) ∧
    (defaultExpirySeconds = 300 ∧
     jsOrNat (some 1) defaultExpirySeconds = 1 ∧
     jsOrNat (some 0) defaultExpirySeconds = 300 ∧
     jsOrNat none defaultExpirySeconds = 300 ∧
     (compSendOtp nearExpiryState (.ok (SendOk.mk none none))).1.timerRemaining
       = jsOrNat (SendOk.mk none none).expires_in 300 ∧
     formatTime 300 = "5:00" ∧
     (startTimer nearExpiryState 300).timerDisplay = "5:00" ∧
     ((tick nearExpiryState).timerDisplay = "Expired" ∧
      (tick nearExpiryState).resendBtnDisabled = false ∧
      (tick nearExpiryState).timerExpired = true)) :=
  ⟨⟨by decide, rfl, rfl, rfl⟩,
   (timer_expiry_behavior nearExpiryState 1 (SendOk.mk none none)).1,
   (timer_expiry_behavior nearExpiryState 1 (SendOk.mk none none)).2.1 (by decide),
   (timer_expiry_behavior nearExpiryState 1 (SendOk.mk none none)).2.2.1,
   (timer_expiry_behavior nearExpiryState 1 (SendOk.mk none none)).2.2.2.1,
   (timer_expiry_behavior nearExpiryState 1 (SendOk.mk none none)).2.2.2.2.1 rfl,
   (timer_expiry_behavior nearExpiryState 1 (SendOk.mk none none)).2.2.2.2.2.1,
   (timer_expiry_behavior nearExpiryState 1 (SendOk.mk none none)).2.2.2.2.2.2.1,
   (timer_expiry_behavior nearExpiryState 1 (SendOk.mk none none)).2.2.2.2.2.2.2 rfl rfl⟩

/-- C7: every failure is local to the request that caused it: a rejected
verify leaves the input form displayed, schedules the transient error
highlight to clear after 500 ms, and re-enables the verify button with
its label restored in the finally block; a rejected send re-enables the
resend button with text `Retry Send`. -/
theorem failure_is_local (st : CompState) (e tok : String)
    (htok : st.sessionToken = some tok)
    (hlen : (joinBoxes st.boxes).length = 6) :
    (compVerifyOtp st (.error e)).1.formVisible = st.formVisible ∧
    (compVerifyOtp st (.error e)).1.successVisible = st.successVisible ∧
    Effect.clearHighlightAfterMs 500 ∈ (compVerifyOtp st (.error e)).2 ∧
    (compVerifyOtp st (.error e)).1.verifyBtnDisabled = false ∧
    (compVerifyOtp st (.error e)).1.verifyBtnText = "Verify OTP" ∧
    (compSendOtp st (.error e)).1.resendBtnDisabled = false ∧
    (compSendOtp st (.error e)).1.resendBtnText = "Retry Send" := by
  refine ⟨?_, ?_, ?_, ?_, ?_, ?_, ?_⟩ <;>
    simp [compVerifyOtp, compSendOtp, verifyFinally, verifyErrorPath, hlen, htok]

/-- Closed witness for `failure_is_local` at a concrete state. -/
theorem failure_is_local_witness :
    (sampleState.sessionToken = some "T1" ∧
     (joinBoxes sampleState.boxes).length = 6) ∧
    ((compVerifyOtp sampleState (.error "Invalid OTP")).1.formVisible
        = sampleState.formVisible ∧
     (compVerifyOtp sampleState (.error "Invalid OTP")).1.successVisible
        = sampleState.successVisible ∧
     Effect.clearHighlightAfterMs 500 ∈ (compVerifyOtp sampleState (.error "Invalid OTP")).2 ∧
     (compVerifyOtp sampleState (.error "Invalid OTP")).1.verifyBtnDisabled = false ∧
     (compVerifyOtp sampleState (.error "Invalid OTP")).1.verifyBtnText = "Verify OTP" ∧
     (compSendOtp sampleState (.error "Invalid OTP")).1.resendBtnDisabled = false ∧
     (compSendOtp sampleState (.error "Invalid OTP")).1.resendBtnText = "Retry Send") :=
  ⟨⟨rfl, by decide⟩,
   failure_is_local sampleState "Invalid OTP" "T1" rfl (by decide)⟩

/-- When every box is well formed, the joined code is all digits. -/
theorem joinBoxes_all_digits (b : Boxes) (h : boxesWF b) :
    (joinBoxes b).all Char.isDigit = true := by
  simp [joinBoxes, List.all_append,
        (h 0).2, (h 1).2, (h 2).2, (h 3).2, (h 4).2, (h 5).2]

/-- The input, Backspace and paste handlers keep every box at most one
character long and digit-only. -/
theorem boxesWF_preserved (st : CompState) (e : BoxEvent)
    (hwf : boxesWF st.boxes) (he : e.wf) :
    boxesWF (applyEvent st e).boxes := by
  cases e with
  | input i raw =>
      have hraw : raw.length ≤ 1 := he
      by_cases hd : raw.all Char.isDigit
      · intro j
        simp only [applyEvent, hd, if_true]
        by_cases hji : j = i
        · subst hji
          simp only [Function.update_same]
          exact ⟨hraw, hd⟩
        · simp only [Function.update_noteq hji]
          exact hwf j
      · intro j
        simp only [applyEvent]
        rw [if_neg hd]
        by_cases hji : j = i
        · subst hji
          simp only [Function.update_same]
          exact ⟨by simp, by simp⟩
        · simp only [Function.update_noteq hji]
          exact hwf j
  | backspaceKey i =>
      by_cases hc : (st.boxes i).isEmpty = true ∧ 0 < i.val
      · intro j
        simp only [applyEvent, if_pos hc]
        by_cases hjk : j = (⟨i.val - 1, Nat.lt_of_le_of_lt (Nat.sub_le _ _) i.isLt⟩ : Fin 6)
        · subst hjk
          simp only [Function.update_same]
          exact ⟨by simp, by simp⟩
        · simp only [Function.update_noteq hjk]
          exact hwf j
      · simp only [applyEvent, if_neg hc]
        exact hwf
  | paste text =>
      intro j
      simp only [applyEvent]
      by_cases hj : j.val < (text.filter Char.isDigit).length
      · simp only [hj, dif_pos]
        refine ⟨by simp, ?_⟩
        simp only [List.all_cons, List.all_nil, Bool.and_true]
        exact (List.mem_filter.mp (List.get_mem _ _ hj)).2
      · simp only [hj, dif_neg, not_false_iff]
        exact hwf j

/-- C4: a verify request is only ever sent with a code of exactly six
decimal digits: the handlers preserve the digit-only one-character box
invariant, an input event carrying a non-digit erases the box, the submit
handler refuses to issue a request (showing an error) whenever the joined
code's length differs from 6, and any verify request that is issued
carries a six-character all-digit code. -/
theorem verify_request_code_six_digits (st : CompState) (e : BoxEvent)
    (i : Fin 6) (raw : List Char) (net : Except String VerifyOk)
    (hwf : boxesWF st.boxes) :
    (e.wf → boxesWF (applyEvent st e).boxes) ∧
    (raw.all Char.isDigit = false → (applyEvent st (.input i raw)).boxes i = []) ∧
    ((joinBoxes st.boxes).length ≠ 6 →
       (compVerifyOtp st net).2 = [] ∧
       (compVerifyOtp st net).1.errorMsg =
         some "Please enter the complete 6-digit OTP") ∧
    (∀ tok otp, Effect.request (.verifyOtp tok otp) ∈ (compVerifyOtp st net).2 →
       otp.length = 6 ∧ otp.all Char.isDigit = true) := by
  refine ⟨fun he => boxesWF_preserved st e hwf he, ?_, ?_, ?_⟩
  · intro hd
    simp [applyEvent, hd, Function.update_same]
  · intro hne
    constructor <;> simp [compVerifyOtp, hne]
  · intro tok otp hmem
    by_cases hlen : (joinBoxes st.boxes).length = 6
    · rcases hst : st.sessionToken with _ | tok'
      · simp [compVerifyOtp, hlen, hst] at hmem
      · cases net with
        | ok resp =>
            simp [compVerifyOtp, hlen, hst] at hmem
            rcases hmem with ⟨htok, hotp⟩
            subst hotp
            exact ⟨hlen, joinBoxes_all_digits st.boxes hwf⟩
        | error e =>
            simp [compVerifyOtp, hlen, hst] at hmem
            rcases hmem with ⟨htok, hotp⟩
            subst hotp
            exact ⟨hlen, joinBoxes_all_digits st.boxes hwf⟩
    · simp [compVerifyOtp, hlen] at hmem

/-- Closed witness for `verify_request_code_six_digits`. -/
theorem verify_request_code_six_digits_witness :
    (boxesWF sampleState.boxes ∧ BoxEvent.wf (.input 0 ['a']) ∧
     (['a'].all Char.isDigit = false) ∧
     ((joinBoxes freshEmailState.boxes).length ≠ 6) ∧
     Effect.request (.verifyOtp "T1" (joinBoxes sampleState.boxes))
       ∈ (compVerifyOtp sampleState (.ok ⟨"AT", "b"⟩)).2) ∧
    (boxesWF (applyEvent sampleState (.paste "123456".toList)).boxes ∧
     (applyEvent sampleState (.input 0 ['a'])).boxes 0 = [] ∧
     (joinBoxes sampleState.boxes).length = 6 ∧
     (joinBoxes sampleState.boxes).all Char.isDigit = true) :=
  ⟨⟨fun _ => ⟨Nat.le_refl 1, rfl⟩, Nat.le_refl 1, by decide, by decide, by decide⟩,
   (verify_request_code_six_digits sampleState (.paste "123456".toList) 0 ['a']
      (.ok ⟨"AT", "b"⟩) (fun _ => ⟨Nat.le_refl 1, rfl⟩)).1 trivial,
   (verify_request_code_six_digits sampleState (.paste "123456".toList) 0 ['a']
      (.ok ⟨"AT", "b"⟩) (fun _ => ⟨Nat.le_refl 1, rfl⟩)).2.1 (by decide),
   (verify_request_code_six_digits sampleState (.paste "123456".toList) 0 ['a']
      (.ok ⟨"AT", "b"⟩) (fun _ => ⟨Nat.le_refl 1, rfl⟩)).2.2.2 "T1"
     (joinBoxes sampleState.boxes) (by decide)⟩

/-- C6 counterexample: in the email-initialized flow the resend click
does not present the stored session token.  After the first init stores
token `T1`, clicking resend issues an `/auth/init-otp-by-email` request
carrying only the email, which presents no session token, and the stored
token is silently replaced by `T2`. -/
theorem resend_email_presents_no_token_cex :
    stateAfterInit.sessionToken = some "T1" ∧
    (compResendClick stateAfterInit (.ok initResp2) (.ok ⟨none, none⟩)).2
      = [.request (.initOtpByEmail "u@x.com")] ∧
    Request.presentsToken (.initOtpByEmail "u@x.com") "T1" = false ∧
    (compResendClick stateAfterInit (.ok initResp2) (.ok ⟨none, none⟩)).1.sessionToken
      = some "T2" := by
  refine ⟨rfl, ?_, rfl, ?_⟩ <;> rfl

/-- C6 (amended): in the email-initialized flow the currently stored
session token is presented on every verify request, a verify request is
never sent while no session token is stored (the submit path raises
`Session token is missing` and issues no network call), and a resend
click re-invokes init-by-email presenting only the email, never the
session token. -/
theorem session_token_usage (st : CompState) (tok em : String)
    (netV : Except String VerifyOk) (netI : Except String InitOk)
    (netS : Except String SendOk)
    (hlen : (joinBoxes st.boxes).length = 6) :
    (st.sessionToken = some tok →
       (compVerifyOtp st netV).2.head? =
         some (.request (.verifyOtp tok (joinBoxes st.boxes)))) ∧
    (st.sessionToken = none →
       (∀ r : Request, Effect.request r ∉ (compVerifyOtp st netV).2) ∧
       (compVerifyOtp st netV).1.errorMsg =
         some "Session token is missing. Please try again.") ∧
    (st.email = some em → em ≠ "" →
       (compResendClick st netI netS).2 = [.request (.initOtpByEmail em)] ∧
       (∀ r ∈ (compResendClick st netI netS).2,
          ∀ tk : String, r ≠ .request (.sendOtp (some tk)) ∧
            r ≠ .request (.verifyOtp tk (joinBoxes st.boxes)))) := by
  refine ⟨?_, ?_, ?_⟩
  · intro htok
    cases netV with
    | ok resp => simp [compVerifyOtp, hlen, htok]
    | error e => simp [compVerifyOtp, hlen, htok]
  · intro htok
    constructor
    · intro r
      simp [compVerifyOtp, hlen, htok]
    · simp [compVerifyOtp, hlen, htok, verifyFinally, verifyErrorPath, jsOrStr]
  · intro hem hemne
    have htr : jsTruthyStr st.email = some em := by
      simp [jsTruthyStr, hem, hemne]
    have heff : (compResendClick st netI netS).2 = [.request (.initOtpByEmail em)] := by
      cases netI with
      | ok resp =>
          simp [compResendClick, compInitOtpByEmail, htr]
      | error e =>
          simp [compResendClick, compInitOtpByEmail, htr]
    refine ⟨heff, ?_⟩
    intro r hr tk
    rw [heff] at hr
    simp at hr
    subst hr
    exact ⟨by simp, by simp⟩

/-- Closed witness for `session_token_usage`. -/
theorem session_token_usage_witness :
    ((joinBoxes sampleState.boxes).length = 6 ∧
     sampleState.sessionToken = some "T1" ∧
     sampleState.email = some "u@x.com" ∧ "u@x.com" ≠ "") ∧
    ((compVerifyOtp sampleState (.ok ⟨"AT", "b"⟩)).2.head? =
       some (.request (.verifyOtp "T1" (joinBoxes sampleState.boxes))) ∧
     ((compResendClick sampleState (.ok initResp2) (.ok ⟨none, none⟩)).2
        = [.request (.initOtpByEmail "u@x.com")])) :=
  ⟨⟨by decide, rfl, rfl, by decide⟩,
   (session_token_usage sampleState "T1" "u@x.com" (.ok ⟨"AT", "b"⟩)
      (.ok initResp2) (.ok ⟨none, none⟩) (by decide)).1 rfl,
   ((session_token_usage sampleState "T1" "u@x.com" (.ok ⟨"AT", "b"⟩)
      (.ok initResp2) (.ok ⟨none, none⟩) (by decide)).2.2 rfl (by decide)).1⟩

/-- C10 counterexample: from the fresh state, pasting `123456` fills all
six boxes and enables the verify button; a following input event typing
`a` into the first box erases that box but returns before
`updateVerifyButton`, leaving the button enabled while not all six boxes
contain a character. -/
theorem nondigit_input_stale_button_cex :
    allFilled statePasted.boxes = true ∧
    statePasted.verifyBtnDisabled = false ∧
    allFilled stateNonDigit.boxes = false ∧
    stateNonDigit.boxes 0 = [] ∧
    stateNonDigit.verifyBtnDisabled = false := by
  refine ⟨?_, ?_, ?_, ?_, ?_⟩ <;> rfl

/-- C10 (amended): after every input event whose value is all digits and
after every paste, the verify button is disabled iff not all six boxes
hold exactly one character; an input event carrying a non-digit erases
the box but leaves the button state unchanged, as does the Backspace
handler; a paste fills at most six boxes using only the decimal digits of
the pasted text, in order, leaving later boxes unchanged. -/
theorem button_state_after_events (st : CompState) (i : Fin 6)
    (raw text : List Char) :
    (raw.all Char.isDigit = true →
       (applyEvent st (.input i raw)).verifyBtnDisabled
         = !(allFilled (applyEvent st (.input i raw)).boxes)) ∧
    (raw.all Char.isDigit = false →
       (applyEvent st (.input i raw)).boxes i = [] ∧
       (applyEvent st (.input i raw)).verifyBtnDisabled = st.verifyBtnDisabled) ∧
    ((applyEvent st (.backspaceKey i)).verifyBtnDisabled = st.verifyBtnDisabled) ∧
    ((applyEvent st (.paste text)).verifyBtnDisabled
       = !(allFilled (applyEvent st (.paste text)).boxes)) ∧
    (∀ j : Fin 6, ∀ h : j.val < (text.filter Char.isDigit).length,
       (applyEvent st (.paste text)).boxes j
         = [(text.filter Char.isDigit).get ⟨j.val, h⟩]) ∧
    (∀ j : Fin 6, (text.filter Char.isDigit).length ≤ j.val →
       (applyEvent st (.paste text)).boxes j = st.boxes j) := by
  refine ⟨?_, ?_, ?_, ?_, ?_, ?_⟩
  · intro hd; simp [applyEvent, hd]
  · intro hd; simp [applyEvent, hd, Function.update_same]
  · by_cases hc : (st.boxes i).isEmpty = true ∧ 0 < i.val
    · simp only [applyEvent, if_pos hc]
    · simp only [applyEvent, if_neg hc]
  · simp [applyEvent]
  · intro j h; simp [applyEvent, h]
  · intro j h; simp [applyEvent, Nat.not_lt.mpr h]

/-- Closed witness for `button_state_after_events`. -/
theorem button_state_after_events_witness :
    ((['5'].all Char.isDigit = true) ∧ (['a'].all Char.isDigit = false) ∧
     ((0 : Fin 6).val < ("12ab3".toList.filter Char.isDigit).length) ∧
     (("12ab3".toList.filter Char.isDigit).length ≤ (5 : Fin 6).val)) ∧
    ((applyEvent freshEmailState (.input 0 ['5'])).verifyBtnDisabled
       = !(allFilled (applyEvent freshEmailState (.input 0 ['5'])).boxes) ∧
     (applyEvent freshEmailState (.input 0 ['a'])).boxes 0 = [] ∧
     (applyEvent freshEmailState (.input 0 ['a'])).verifyBtnDisabled
       = freshEmailState.verifyBtnDisabled ∧
     (applyEvent freshEmailState (.backspaceKey 0)).verifyBtnDisabled
       = freshEmailState.verifyBtnDisabled ∧
     (applyEvent freshEmailState (.paste "12ab3".toList)).verifyBtnDisabled
       = !(allFilled (applyEvent freshEmailState (.paste "12ab3".toList)).boxes) ∧
     (applyEvent freshEmailState (.paste "12ab3".toList)).boxes 0
       = [("12ab3".toList.filter Char.isDigit).get ⟨0, by decide⟩] ∧
     (applyEvent freshEmailState (.paste "12ab3".toList)).boxes 5
       = freshEmailState.boxes 5) :=
  ⟨⟨by decide, by decide, by decide, by decide⟩,
   (button_state_after_events freshEmailState 0 ['5'] "12ab3".toList).1 (by decide),
   ((button_state_after_events freshEmailState 0 ['a'] "12ab3".toList).2.1 (by decide)).1,
   ((button_state_after_events freshEmailState 0 ['a'] "12ab3".toList).2.1 (by decide)).2,
   (button_state_after_events freshEmailState 0 ['a'] "12ab3".toList).2.2.1,
   (button_state_after_events freshEmailState 0 ['a'] "12ab3".toList).2.2.2.1,
   (button_state_after_events freshEmailState 0 ['a'] "12ab3".toList).2.2.2.2.1
     0 (by decide),
   (button_state_after_events freshEmailState 0 ['a'] "12ab3".toList).2.2.2.2.2
     5 (by decide)⟩

/-- C8: the two copies of `MFAApi.request` in the shared API file are
observationally equivalent for every input and fetch outcome: they build
the same URL, method, headers and body and produce the same resolution
or rejection, differing only in console output. -/
theorem request_versions_equivalent (apiUrl endpoint method : String)
    (data token : Option String) (env : FetchOutcome) :
    runRequestV1 apiUrl endpoint method data token env =
      runRequestV2 apiUrl endpoint method data token env := rfl

/-- C9: `MFAApi.configure` stores the url with exactly one trailing `/`
removed when it ends in `/` and unchanged otherwise (so a url ending in
`//` is stored still ending in `/`), and every request uses exactly the
stored value concatenated with the endpoint as its URL. -/
theorem configure_strips_one_slash (s u : List Char)
    (apiUrl endpoint method : String) (data token : Option String)
    (env : FetchOutcome) (h : u.getLast? ≠ some '/') :
    configureStored (s ++ ['/']) = s ∧
    configureStored u = u ∧
    configureStored ("http://h//".toList) = "http://h/".toList ∧
    (runRequestV1 apiUrl endpoint method data token env).1.url
      = apiUrl ++ endpoint := by
  refine ⟨?_, ?_, by decide, rfl⟩
  · simp [configureStored, stripTrailingSlash]
  · simp [configureStored, stripTrailingSlash, h]

/-- Closed witness for `configure_strips_one_slash` at concrete urls. -/
theorem configure_strips_one_slash_witness :
    (("http://h".toList : List Char).getLast? ≠ some '/') ∧
    (configureStored ("http://a".toList ++ ['/']) = "http://a".toList ∧
     configureStored ("http://h".toList) = "http://h".toList ∧
     configureStored ("http://h//".toList) = "http://h/".toList ∧
     (runRequestV1 "http://h" "/auth/login" "POST" none none
        (.netError "x")).1.url = "http://h" ++ "/auth/login") :=
  ⟨by decide,
   configure_strips_one_slash ("http://a".toList) ("http://h".toList)
     "http://h" "/auth/login" "POST" none none (.netError "x") (by decide)⟩

end FAv2
